import Mathlib

/-!
Verification of the sqr terminal database explorer.

This file is a shallow embedding, in Lean, of the parts of the Rust source
that the specification claims talk about: the value/display layer
(src/types/query.rs), the query execution and pagination helpers
(src/db/query.rs), the worker command handling (src/worker/mod.rs), the
application state machine (src/app/state.rs, src/app/mod.rs) and the
ER-diagram relationship deduplication (src/ui/diagram.rs).  Rust strings are
modelled as Lean strings together with explicit UTF-8 byte accounting, since
the source indexes strings by byte offset; operations that can panic in Rust
are modelled as Option-valued, with none standing for a panic.  The external
SQLite engine and the IEEE-754 formatting routines are not source code of
the repository; where a claim depends on them they are modelled explicitly
and the model is documented at the definition site.
-/

namespace Sqr

/-- UTF-8 encoded size in bytes of a unicode scalar value, as computed by
Rust char::len_utf8. -/
def charUtf8Size (c : Char) : Nat :=
  if c.val < 0x80 then 1
  else if c.val < 0x800 then 2
  else if c.val < 0x10000 then 3
  else 4

/-- Byte length of a string under UTF-8; this is what Rust String::len and
str::len return. -/
def strUtf8Len (s : String) : Nat := (s.data.map charUtf8Size).sum

/-- Split a character list at a byte offset.  Returns none when the offset
is past the end of the encoded string or falls strictly inside the UTF-8
encoding of a character; Rust byte slicing of a str panics in exactly those
cases. -/
def byteSplitAt : List Char → Nat → Option (List Char × List Char)
  | cs, 0 => some ([], cs)
  | [], _ + 1 => none
  | c :: cs, k + 1 =>
    if charUtf8Size c ≤ k + 1 then
      match byteSplitAt cs (k + 1 - charUtf8Size c) with
      | some (a, b) => some (c :: a, b)
      | none => none
    else none

/-- Abstraction of a Rust f64 as observed by Value::display: the display
code only tests whether the fractional part is zero and then formats with
either 0 or 6 decimal places.  IEEE-754 arithmetic and decimal formatting
are outside this embedding, so the outcome of the fract test and the two
formatted renderings are carried as data; both format! arms in the source
are total. -/
structure RustF64 where
  fractZero : Bool
  fixed0 : String
  fixed6 : String
deriving DecidableEq

/-- Value enum from src/types/query.rs. -/
inductive Value where
  | null : Value
  | integer (i : Int) : Value
  | real (r : RustF64) : Value
  | text (t : String) : Value
  | blob (b : List Nat) : Value
deriving DecidableEq

/-- Value::display from src/types/query.rs.  The Text arm compares the byte
length against max_len and, when truncating, slices the string at byte
offset max_len.saturating_sub(3); that slice panics (modelled as none) when
the offset is not a character boundary. -/
def Value.display : Value → Nat → Option String
  | .null, _ => some "NULL"
  | .integer i, _ => some (toString i)
  | .real r, _ => some (if r.fractZero then r.fixed0 else r.fixed6)
  | .text t, max_len =>
    if strUtf8Len t > max_len then
      match byteSplitAt t.data (max_len - 3) with
      | some (pre, _) => some (String.mk pre ++ "...")
      | none => none
    else some t
  | .blob b, max_len =>
    if b.length > max_len then some ("<BLOB " ++ toString b.length ++ " bytes>...")
    else some ("<BLOB " ++ toString b.length ++ " bytes>")

/-- QueryResult from src/types/query.rs. -/
structure QueryResult where
  columns : List String
  rows : List (List Value)
  truncated : Bool
  exec_ms : Nat
deriving DecidableEq

/-- The row collection loop of execute_query (src/db/query.rs, lines
37 to 46): rows are pulled from the iterator one at a time; when a row is
pulled while the accumulator already holds limit rows, truncated is set and
the loop breaks without pulling further rows.  The third component counts
how many rows were pulled from the iterator in total. -/
def collectRows (limit : Nat) :
    List (List Value) → List (List Value) → List (List Value) × Bool × Nat
  | [], acc => (acc, false, 0)
  | r :: rest, acc =>
    if limit ≤ acc.length then (acc, true, 1)
    else
      let res := collectRows limit rest (acc ++ [r])
      (res.1, res.2.1, res.2.2 + 1)

/-- execute_query from src/db/query.rs.  The prepared statement is
abstracted as its column list together with the full row sequence the
engine would yield; the function collects rows up to the cap, which
defaults to 1000 when max_rows is None.  Wall-clock latency is outside the
embedding, so exec_ms is 0.  The second component of the result counts how
many rows were pulled from the underlying iterator. -/
def execute_query (columns : List String) (underlying : List (List Value))
    (max_rows : Option Nat) : QueryResult × Nat :=
  let limit := max_rows.getD 1000
  let res := collectRows limit underlying []
  ({ columns := columns, rows := res.1, truncated := res.2.1, exec_ms := 0 }, res.2.2)

/-- Modelled from the engine: a SELECT with LIMIT l OFFSET o bound as
parameters, over a table whose full row sequence is given, yields the
window that skips the first o rows and keeps at most l of the rest.  This
models the SQLite behaviour that get_table_rows (src/db/query.rs) delegates
to; the repository itself contributes only the collection of every yielded
row and the constant truncated flag. -/
def sqliteLimitOffset (table : List (List Value)) (limit offset : Nat) :
    List (List Value) :=
  (table.drop offset).take limit

/-- get_table_rows from src/db/query.rs: pages through a table with bound
LIMIT and OFFSET parameters, collects every yielded row, and always reports
truncated = false. -/
def get_table_rows (columns : List String) (table : List (List Value))
    (limit offset : Nat) : QueryResult :=
  { columns := columns
    rows := sqliteLimitOffset table limit offset
    truncated := false
    exec_ms := 0 }

lemma collectRows_of_le (limit : Nat) :
    ∀ (iter acc : List (List Value)), iter.length + acc.length ≤ limit →
      collectRows limit iter acc = (acc ++ iter, false, iter.length) := by
  intro iter
  induction iter with
  | nil => intro acc _; simp [collectRows]
  | cons r rest ih =>
    intro acc h
    simp only [List.length_cons] at h
    have hcap : ¬ limit ≤ acc.length := by omega
    simp only [collectRows, if_neg hcap]
    rw [ih (acc ++ [r]) (by simp; omega)]
    simp

lemma collectRows_of_lt (limit : Nat) :
    ∀ (iter acc : List (List Value)), acc.length ≤ limit →
      limit < acc.length + iter.length →
      collectRows limit iter acc =
        (acc ++ iter.take (limit - acc.length), true, (limit - acc.length) + 1) := by
  intro iter
  induction iter with
  | nil => intro acc h1 h2; simp only [List.length_nil] at h2; omega
  | cons r rest ih =>
    intro acc h1 h2
    by_cases hcap : limit ≤ acc.length
    · have heq : limit - acc.length = 0 := by omega
      simp [collectRows, if_pos hcap, heq]
    · have hlt : acc.length < limit := by omega
      simp only [collectRows, if_neg hcap]
      rw [ih (acc ++ [r]) (by simp; omega)
        (by simp only [List.length_append, List.length_cons, List.length_nil] at h2 ⊢; omega)]
      have hsub : limit - acc.length = (limit - (acc.length + 1)) + 1 := by omega
      simp [hsub, List.append_assoc]

/-- C1: for every query executed via execute_query with row cap m (default
1000 when max_rows is unspecified), if the underlying result has more than
m rows then the returned QueryResult has exactly m rows, truncated is true,
and only m + 1 rows were pulled from the result set (the iteration stops
without consuming the rest); if the underlying result has m or fewer rows,
all rows are returned unchanged and truncated is false. -/
theorem C1_execute_query_row_cap (columns : List String)
    (underlying : List (List Value)) (max_rows : Option Nat) :
    (max_rows.getD 1000 < underlying.length →
      (execute_query columns underlying max_rows).1.rows.length = max_rows.getD 1000 ∧
      (execute_query columns underlying max_rows).1.truncated = true ∧
      (execute_query columns underlying max_rows).2 = max_rows.getD 1000 + 1) ∧
    (underlying.length ≤ max_rows.getD 1000 →
      (execute_query columns underlying max_rows).1.rows = underlying ∧
      (execute_query columns underlying max_rows).1.truncated = false ∧
      (execute_query columns underlying max_rows).2 = underlying.length) := by
  constructor
  · intro h
    have hc := collectRows_of_lt (max_rows.getD 1000) underlying [] (by simp) (by simpa using h)
    refine ⟨?_, ?_, ?_⟩
    all_goals simp [execute_query, hc]
    all_goals omega
  · intro h
    have hc := collectRows_of_le (max_rows.getD 1000) underlying [] (by simpa using h)
    refine ⟨?_, ?_, ?_⟩ <;> simp [execute_query, hc]

theorem C1_witness :
    (2 < ([[Value.null], [Value.null], [Value.null]] : List (List Value)).length ∧
      (execute_query ["c"] [[Value.null], [Value.null], [Value.null]] (some 2)).1.rows.length = 2 ∧
      (execute_query ["c"] [[Value.null], [Value.null], [Value.null]] (some 2)).1.truncated = true ∧
      (execute_query ["c"] [[Value.null], [Value.null], [Value.null]] (some 2)).2 = 3) ∧
    ((execute_query ["c"] [[Value.null], [Value.null]] none).1.rows =
        [[Value.null], [Value.null]] ∧
      (execute_query ["c"] [[Value.null], [Value.null]] none).1.truncated = false) :=
  ⟨⟨by decide,
    (C1_execute_query_row_cap ["c"] [[Value.null], [Value.null], [Value.null]] (some 2)).1
      (by decide)⟩,
    ⟨((C1_execute_query_row_cap ["c"] [[Value.null], [Value.null]] none).2 (by decide)).1,
      ((C1_execute_query_row_cap ["c"] [[Value.null], [Value.null]] none).2 (by decide)).2.1⟩⟩

/-- C2: for every table with n rows, page size p greater than 0 and page
index k, the paged read get_table_rows with limit p and offset k * p
returns min p (n - k * p) rows (in particular the page is empty when
k * p is at least n), and the returned QueryResult always has
truncated = false. -/
theorem C2_get_table_rows_paging (columns : List String)
    (table : List (List Value)) (p k : Nat) (_hp : 0 < p) :
    (get_table_rows columns table p (k * p)).rows.length =
      min p (table.length - k * p) ∧
    (table.length ≤ k * p → (get_table_rows columns table p (k * p)).rows = []) ∧
    (get_table_rows columns table p (k * p)).truncated = false := by
  refine ⟨?_, ?_, rfl⟩
  · simp [get_table_rows, sqliteLimitOffset]
  · intro h
    have hdrop : table.drop (k * p) = [] := by
      rw [List.drop_eq_nil_iff]
      exact h
    simp [get_table_rows, sqliteLimitOffset, hdrop]

theorem C2_witness :
    (0 < 2 ∧
      (get_table_rows ["c"] [[Value.null], [Value.null], [Value.null]] 2 (1 * 2)).rows.length =
        min 2 (([[Value.null], [Value.null], [Value.null]] : List (List Value)).length - 1 * 2) ∧
      (get_table_rows ["c"] [[Value.null], [Value.null], [Value.null]] 2 (1 * 2)).truncated = false) ∧
    (get_table_rows ["c"] [[Value.null]] 2 (3 * 2)).rows = [] :=
  ⟨⟨by decide,
    (C2_get_table_rows_paging ["c"] [[Value.null], [Value.null], [Value.null]] 2 1 (by decide)).1,
    (C2_get_table_rows_paging ["c"] [[Value.null], [Value.null], [Value.null]] 2 1 (by decide)).2.2⟩,
    (C2_get_table_rows_paging ["c"] [[Value.null]] 2 3 (by decide)).2.1 (by decide)⟩

/-- C10: evaluation of Value::display at a failing input.  The text value
holds four copies of a two-byte character, so its byte length 8 exceeds
max_len = 6 and the truncation arm slices the string at byte offset 3,
which falls inside the second character; Rust panics there, modelled as
none.  This refutes totality of display on all constructed values. -/
theorem C10_display_panics_mid_char :
    Value.display (Value.text "éééé") 6 = none := by decide

/-- TableInfo from src/types/table.rs. -/
structure TableInfo where
  name : String
  row_count : Option Nat
  sql : Option String
deriving DecidableEq

/-- ColumnInfo from src/types/table.rs. -/
structure ColumnInfo where
  name : String
  data_type : String
  not_null : Bool
  default_value : Option String
  primary_key : Bool
  auto_increment : Bool
deriving DecidableEq

/-- IndexInfo from src/types/table.rs. -/
structure IndexInfo where
  name : String
  table : String
  unique : Bool
  columns : List String
  sql : Option String
deriving DecidableEq

/-- ForeignKeyInfo from src/types/table.rs. -/
structure ForeignKeyInfo where
  id : Int
  from_table : String
  from_column : String
  to_table : String
  to_column : String
  on_update : Option String
  on_delete : Option String
deriving DecidableEq

/-- DiagramTable from src/types/diagram.rs. -/
structure DiagramTable where
  name : String
  columns : List ColumnInfo
  foreign_keys : List ForeignKeyInfo
deriving DecidableEq

/-- DiagramData from src/types/diagram.rs. -/
structure DiagramData where
  tables : List DiagramTable
deriving DecidableEq

/-- ViewMode from src/app/state.rs. -/
inductive ViewMode where
  | rows | schema | query | diagram
deriving DecidableEq

/-- Focus from src/app/state.rs. -/
inductive Focus where
  | tables | content | info
deriving DecidableEq

/-- Lowercase mapping on the ASCII range: A to Z map to a to z, everything
else is unchanged.  This models Rust str::to_lowercase, whose Unicode
lowercasing agrees with this mapping on ASCII characters; the filters the
claims exercise are ASCII. -/
def charLower (c : Char) : Char :=
  if 'A' ≤ c ∧ c ≤ 'Z' then Char.ofNat (c.toNat + 32) else c

/-- Rust str::to_lowercase under the character mapping above. -/
def to_lowercase (s : String) : String := String.mk (s.data.map charLower)

/-- Does the first character list start with the second. -/
def startsWithChars : List Char → List Char → Bool
  | _, [] => true
  | [], _ :: _ => false
  | a :: as, b :: bs => a == b && startsWithChars as bs

/-- Substring containment on character lists.  Models Rust str::contains
with a string pattern: UTF-8 is self-synchronising, so a byte-level match of
one valid string inside another occurs exactly at character boundaries, and
byte-level search coincides with character-level search. -/
def strContainsSub (hay needle : List Char) : Bool :=
  match hay with
  | [] => needle.isEmpty
  | _ :: t => startsWithChars hay needle || strContainsSub t needle

/-- AppState from src/app/state.rs. -/
structure AppState where
  tables : List TableInfo
  selected_table_index : Nat
  table_filter : String
  show_internal_tables : Bool
  tables_loading : Bool
  view_mode : ViewMode
  current_table : Option String
  table_rows : Option QueryResult
  current_page : Nat
  page_size : Nat
  rows_loading : Bool
  sql_query : String
  query_result : Option QueryResult
  query_error : Option String
  query_loading : Bool
  table_info : Option TableInfo
  schema_columns : List ColumnInfo
  schema_indexes : List IndexInfo
  schema_foreign_keys : List ForeignKeyInfo
  schema_loading : Bool
  diagram_data : Option DiagramData
  diagram_loading : Bool
  focus : Focus
  show_help : Bool
  show_sql_editor : Bool
  edit_mode : Bool
  editing_row : Option Nat
  editing_col : Option Nat
  edit_buffer : String
  edit_cursor_pos : Nat
  full_edit_mode : Bool
  sql_cursor_pos : Nat
deriving DecidableEq

/-- AppState::new from src/app/state.rs. -/
def AppState.new (page_size : Nat) : AppState where
  tables := []
  selected_table_index := 0
  table_filter := ""
  show_internal_tables := false
  tables_loading := false
  view_mode := .rows
  current_table := none
  table_rows := none
  current_page := 0
  page_size := page_size
  rows_loading := false
  sql_query := ""
  query_result := none
  query_error := none
  query_loading := false
  table_info := none
  schema_columns := []
  schema_indexes := []
  schema_foreign_keys := []
  schema_loading := false
  diagram_data := none
  diagram_loading := false
  focus := .content
  show_help := false
  show_sql_editor := true
  edit_mode := false
  editing_row := none
  editing_col := none
  edit_buffer := ""
  edit_cursor_pos := 0
  full_edit_mode := false
  sql_cursor_pos := 0

/-- AppState::filtered_tables from src/app/state.rs: with an empty filter
the whole table list, otherwise the tables whose lowercased name contains
the lowercased filter as a substring. -/
def AppState.filtered_tables (s : AppState) : List TableInfo :=
  if s.table_filter.isEmpty then s.tables
  else s.tables.filter fun t =>
    strContainsSub (to_lowercase t.name).data (to_lowercase s.table_filter).data

/-- AppState::selected_table from src/app/state.rs: a bounds-checked lookup
of the selection index in the filtered list. -/
def AppState.selected_table (s : AppState) : Option String :=
  (s.filtered_tables.get? s.selected_table_index).map (·.name)

/-- AppState::move_up from src/app/state.rs. -/
def AppState.move_up (s : AppState) : AppState :=
  let filtered_len := s.filtered_tables.length
  if 0 < filtered_len then
    { s with selected_table_index :=
        (s.selected_table_index + filtered_len - 1) % filtered_len }
  else s

/-- AppState::move_down from src/app/state.rs. -/
def AppState.move_down (s : AppState) : AppState :=
  let filtered_len := s.filtered_tables.length
  if 0 < filtered_len then
    { s with selected_table_index := (s.selected_table_index + 1) % filtered_len }
  else s

/-- AppState::next_pane from src/app/state.rs. -/
def AppState.next_pane (s : AppState) : AppState :=
  { s with focus := match s.focus with
      | .tables => .content
      | .content => .tables
      | .info => .tables }

/-- AppState::prev_pane from src/app/state.rs. -/
def AppState.prev_pane (s : AppState) : AppState :=
  { s with focus := match s.focus with
      | .tables => .content
      | .content => .tables
      | .info => .content }

/-- AppState::toggle_view_mode from src/app/state.rs. -/
def AppState.toggle_view_mode (s : AppState) : AppState :=
  { s with view_mode := match s.view_mode with
      | .rows => .schema
      | .schema => .diagram
      | .diagram => .rows
      | .query => .rows }

/-- AppState::next_page from src/app/state.rs. -/
def AppState.next_page (s : AppState) : AppState :=
  { s with current_page := s.current_page + 1 }

/-- AppState::prev_page from src/app/state.rs. -/
def AppState.prev_page (s : AppState) : AppState :=
  if 0 < s.current_page then { s with current_page := s.current_page - 1 } else s

/-- WorkerMessage from src/worker/mod.rs. -/
inductive WorkerMessage where
  | loadTables (include_internal : Bool)
  | loadTableRows (table_name : String) (limit offset : Nat)
  | executeQuery (query : String) (max_rows : Option Nat)
  | getTableInfo (table_name : String)
  | loadSchema (table_name : String)
  | loadDiagram
  | updateCell (table_name : String) (row_index : Nat) (column_name : String)
      (new_value : String)
  | shutdown
deriving DecidableEq

/-- WorkerResponse from src/worker/mod.rs. -/
inductive WorkerResponse where
  | tablesLoaded (tables : List TableInfo)
  | tableRowsLoaded (result : QueryResult)
  | queryExecuted (result : QueryResult)
  | tableInfoLoaded (info : TableInfo)
  | schemaLoaded (columns : List ColumnInfo) (indexes : List IndexInfo)
      (foreign_keys : List ForeignKeyInfo)
  | diagramLoaded (data : DiagramData)
  | error (message : String)
  | cellUpdated
deriving DecidableEq

/-- App::load_table from src/app/mod.rs, lines 529 to 545: record the new
current table, set the rows-loading flag, drop the old rows, and send a
LoadTableRows command at offset current_page * page_size followed by a
GetTableInfo command.  The sends are returned as a message list. -/
def AppState.load_table (s : AppState) (table_name : String) :
    AppState × List WorkerMessage :=
  let offset := s.current_page * s.page_size
  ({ s with current_table := some table_name
            rows_loading := true
            table_rows := none },
    [WorkerMessage.loadTableRows table_name s.page_size offset,
     WorkerMessage.getTableInfo table_name])

/-- App::load_schema from src/app/mod.rs. -/
def AppState.load_schema (s : AppState) (table_name : String) :
    AppState × List WorkerMessage :=
  ({ s with schema_loading := true
            schema_columns := []
            schema_indexes := []
            schema_foreign_keys := [] },
    [WorkerMessage.loadSchema table_name])

/-- App::execute_query from src/app/mod.rs: a no-op on a blank query,
otherwise set the query-loading flag, clear the error, and request at most
1000 rows. -/
def AppState.execute_query (s : AppState) : AppState × List WorkerMessage :=
  if s.sql_query.trim.isEmpty then (s, [])
  else ({ s with query_loading := true, query_error := none },
    [WorkerMessage.executeQuery s.sql_query (some 1000)])

/-- The Error arm of App::process_worker_responses (src/app/mod.rs, lines
79 to 105): the error is attributed to the first subsystem in the fixed
precedence order query, rows, tables, schema, diagram, edit mode, generic
whose loading flag is set; attribution clears that flag and stores the
message; an error attributed to edit mode leaves edit mode active. -/
def process_error (message : String) (s : AppState) : AppState :=
  if s.query_loading then { s with query_error := some message, query_loading := false }
  else if s.rows_loading then { s with query_error := some message, rows_loading := false }
  else if s.tables_loading then { s with query_error := some message, tables_loading := false }
  else if s.schema_loading then { s with query_error := some message, schema_loading := false }
  else if s.diagram_loading then { s with query_error := some message, diagram_loading := false }
  else if s.edit_mode then { s with query_error := some message }
  else { s with query_error := some message }

/-- App from src/app/mod.rs (the worker handle is replaced by the message
lists the transition functions return). -/
structure App where
  state : AppState
  should_quit : Bool
deriving DecidableEq

/-- App::new from src/app/mod.rs. -/
def App.new (page_size : Nat) : App where
  state := AppState.new page_size
  should_quit := false

/-- One iteration of App::process_worker_responses (src/app/mod.rs, lines
33 to 109): apply one drained worker response to the application.  The
CellUpdated arm reloads the current table, which sends worker messages;
every other arm sends nothing. -/
def App.process_worker_response (a : App) (r : WorkerResponse) :
    App × List WorkerMessage :=
  match r with
  | .tablesLoaded tables =>
    ({ a with state := { a.state with tables := tables, tables_loading := false } }, [])
  | .tableRowsLoaded result =>
    ({ a with state := { a.state with table_rows := some result, rows_loading := false } }, [])
  | .queryExecuted result =>
    ({ a with state := { a.state with
        query_result := some result
        query_error := none
        query_loading := false
        view_mode := .query } }, [])
  | .tableInfoLoaded info =>
    ({ a with state := { a.state with table_info := some info } }, [])
  | .schemaLoaded columns indexes foreign_keys =>
    ({ a with state := { a.state with
        schema_columns := columns
        schema_indexes := indexes
        schema_foreign_keys := foreign_keys
        schema_loading := false } }, [])
  | .diagramLoaded data =>
    ({ a with state := { a.state with diagram_data := some data, diagram_loading := false } }, [])
  | .cellUpdated =>
    let p := match a.state.current_table with
      | some table_name => a.state.load_table table_name
      | none => (a.state, [])
    ({ a with state := { p.1 with
        edit_mode := false
        editing_row := none
        editing_col := none
        edit_buffer := ""
        edit_cursor_pos := 0
        full_edit_mode := false } }, p.2)
  | .error message =>
    ({ a with state := process_error message a.state }, [])

/-- C3: a worker Error result is attributed to exactly one subsystem, the
first in the precedence order query, rows, tables, schema, diagram whose
loading flag is set (falling back to edit mode and then to a generic
error); the chosen loading flag is cleared while the other loading flags
are untouched, the message is stored as the current error, and the
edit-mode flag is never changed, so an error attributed to edit mode keeps
edit mode active. -/
theorem C3_error_attribution (s : AppState) (message : String) :
    (process_error message s).query_error = some message ∧
    (process_error message s).edit_mode = s.edit_mode ∧
    (s.query_loading = true →
      (process_error message s).query_loading = false ∧
      (process_error message s).rows_loading = s.rows_loading ∧
      (process_error message s).tables_loading = s.tables_loading ∧
      (process_error message s).schema_loading = s.schema_loading ∧
      (process_error message s).diagram_loading = s.diagram_loading) ∧
    (s.query_loading = false → s.rows_loading = true →
      (process_error message s).rows_loading = false ∧
      (process_error message s).query_loading = false ∧
      (process_error message s).tables_loading = s.tables_loading ∧
      (process_error message s).schema_loading = s.schema_loading ∧
      (process_error message s).diagram_loading = s.diagram_loading) ∧
    (s.query_loading = false → s.rows_loading = false → s.tables_loading = true →
      (process_error message s).tables_loading = false ∧
      (process_error message s).query_loading = false ∧
      (process_error message s).rows_loading = false ∧
      (process_error message s).schema_loading = s.schema_loading ∧
      (process_error message s).diagram_loading = s.diagram_loading) ∧
    (s.query_loading = false → s.rows_loading = false → s.tables_loading = false →
      s.schema_loading = true →
      (process_error message s).schema_loading = false ∧
      (process_error message s).query_loading = false ∧
      (process_error message s).rows_loading = false ∧
      (process_error message s).tables_loading = false ∧
      (process_error message s).diagram_loading = s.diagram_loading) ∧
    (s.query_loading = false → s.rows_loading = false → s.tables_loading = false →
      s.schema_loading = false → s.diagram_loading = true →
      (process_error message s).diagram_loading = false ∧
      (process_error message s).query_loading = false ∧
      (process_error message s).rows_loading = false ∧
      (process_error message s).tables_loading = false ∧
      (process_error message s).schema_loading = false) ∧
    (s.query_loading = false → s.rows_loading = false → s.tables_loading = false →
      s.schema_loading = false → s.diagram_loading = false →
      (process_error message s).query_loading = false ∧
      (process_error message s).rows_loading = false ∧
      (process_error message s).tables_loading = false ∧
      (process_error message s).schema_loading = false ∧
      (process_error message s).diagram_loading = false) := by
  refine ⟨?_, ?_, ?_, ?_, ?_, ?_, ?_, ?_⟩
  · unfold process_error; split_ifs <;> rfl
  · unfold process_error; split_ifs <;> rfl
  · intro h1; simp [process_error, h1]
  · intro h1 h2; simp [process_error, h1, h2]
  · intro h1 h2 h3; simp [process_error, h1, h2, h3]
  · intro h1 h2 h3 h4; simp [process_error, h1, h2, h3, h4]
  · intro h1 h2 h3 h4 h5; simp [process_error, h1, h2, h3, h4, h5]
  · intro h1 h2 h3 h4 h5; simp [process_error, h1, h2, h3, h4, h5]

theorem C3_witness :
    ({ AppState.new 10 with rows_loading := true, edit_mode := true } : AppState).query_loading
        = false ∧
    ({ AppState.new 10 with rows_loading := true, edit_mode := true } : AppState).rows_loading
        = true ∧
    (process_error "boom" { AppState.new 10 with rows_loading := true, edit_mode := true }).rows_loading = false ∧
    (process_error "boom" { AppState.new 10 with rows_loading := true, edit_mode := true }).query_error = some "boom" ∧
    (process_error "boom" { AppState.new 10 with rows_loading := true, edit_mode := true }).edit_mode = true :=
  ⟨rfl, rfl,
    ((C3_error_attribution { AppState.new 10 with rows_loading := true, edit_mode := true }
      "boom").2.2.2.1 rfl rfl).1,
    (C3_error_attribution { AppState.new 10 with rows_loading := true, edit_mode := true }
      "boom").1,
    (C3_error_attribution { AppState.new 10 with rows_loading := true, edit_mode := true }
      "boom").2.1⟩

/-- C9: table-name filtering is case-insensitive substring matching and
well-behaved at the identity: for every state, filtering with "abc" and
with "ABC" yields identical results, and an empty filter returns the full
table list unchanged and in order. -/
theorem C9_filter_case_insensitive (s : AppState) :
    { s with table_filter := "abc" }.filtered_tables =
      { s with table_filter := "ABC" }.filtered_tables ∧
    { s with table_filter := "" }.filtered_tables = s.tables := by
  constructor
  · have h : to_lowercase "ABC" = to_lowercase "abc" := by decide
    have h1 : ("abc" : String).isEmpty = false := by decide
    have h2 : ("ABC" : String).isEmpty = false := by decide
    simp [AppState.filtered_tables, h, h1, h2]
  · have h0 : ("" : String).isEmpty = true := by decide
    simp [AppState.filtered_tables, h0]

/-- KeyModifiers from crossterm, restricted to the two flags the source
reads. -/
structure KeyModifiers where
  shift : Bool
  ctrl : Bool
deriving DecidableEq

/-- KeyModifiers::is_empty. -/
def KeyModifiers.isEmpty (m : KeyModifiers) : Bool := !m.shift && !m.ctrl

/-- No modifier held. -/
def noMods : KeyModifiers := ⟨false, false⟩

/-- The key codes src/app/mod.rs matches on. -/
inductive KeyCode where
  | tab | up | down | enter | esc | left | right | backspace | delete | home | endKey
  | char (c : Char)
deriving DecidableEq

/-- KeyEvent from crossterm as read by the source. -/
structure KeyEvent where
  code : KeyCode
  modifiers : KeyModifiers
deriving DecidableEq

/-- Rust String::insert at a byte offset: panics (none) when the offset is
not a character boundary of the string. -/
def byteInsert (s : String) (pos : Nat) (c : Char) : Option String :=
  match byteSplitAt s.data pos with
  | some (a, b) => some (String.mk (a ++ c :: b))
  | none => none

/-- Rust String::remove at a byte offset: removes the character starting at
that offset; panics (none) when the offset is not a character boundary or
is the end of the string. -/
def byteRemove (s : String) (pos : Nat) : Option String :=
  match byteSplitAt s.data pos with
  | some (_, []) => none
  | some (a, _ :: b) => some (String.mk (a ++ b))
  | none => none

/-- Rust String::pop: drop the last character. -/
def strPop (s : String) : String := String.mk s.data.dropLast

/-- The full-edit promotion test computed at every edit-mode cell targeting
site (src/app/mod.rs lines 146, 172 and 585):
full_value.len() > 50 || full_value.contains a newline, where len is the
UTF-8 byte length. -/
def fullEditPromotion (full_value : String) : Bool :=
  decide (50 < strUtf8Len full_value) || full_value.data.contains '\n'

/-- App::enter_edit_mode from src/app/mod.rs, lines 574 to 590: when a row
result with at least one row and one column is loaded, target cell (0,0),
seed the edit buffer with the full (max_len 10000) display of that cell,
put the cursor at the byte end, and apply the full-edit promotion.  The
display call can panic on pathological text, modelled as none. -/
def AppState.enter_edit_mode (s : AppState) : Option AppState :=
  match s.table_rows with
  | none => some s
  | some result =>
    if !result.rows.isEmpty && !result.columns.isEmpty then
      let s1 := { s with edit_mode := true, editing_row := some 0, editing_col := some 0 }
      match result.rows.get? 0 with
      | none => some s1
      | some row =>
        match row.get? 0 with
        | none => some s1
        | some val =>
          match val.display 10000 with
          | none => none
          | some full_value =>
            some { s1 with
              edit_buffer := full_value
              edit_cursor_pos := strUtf8Len full_value
              full_edit_mode := fullEditPromotion full_value }
    else some s

/-- App::save_edited_cell from src/app/mod.rs, lines 593 to 625: clear any
previous error and send UpdateCell at the absolute row index
current_page * page_size + in_page_row_index; each failure to resolve the
edit target stores the corresponding error text.  The channel send itself
is modelled as always succeeding. -/
def AppState.save_edited_cell (s : AppState) : AppState × List WorkerMessage :=
  let s0 := { s with query_error := none }
  match s.editing_row, s.editing_col, s.current_table with
  | some row_idx, some col_idx, some table_name =>
    match s.table_rows with
    | some result =>
      if h : col_idx < result.columns.length then
        let column_name := result.columns.get ⟨col_idx, h⟩
        let actual_row_index := s.current_page * s.page_size + row_idx
        (s0, [WorkerMessage.updateCell table_name actual_row_index column_name s.edit_buffer])
      else ({ s0 with query_error := some "Invalid column index" }, [])
    | none => ({ s0 with query_error := some "No table data available" }, [])
  | _, _, _ =>
    ({ s0 with query_error := some "Invalid edit state: missing row, column, or table name" }, [])

/-- The catch-all text-input branch of App::handle_key_event (the final
match arm starting at src/app/mod.rs line 427).  The delegations to
handle_text_editor_input (full-editor and SQL-editor text editing,
src/app/text_editor.rs) are outside the modelled fragment: the model
returns none there, exactly as it does for a panic. -/
def handle_key_fallthrough (ev : KeyEvent) (a : App) : Option (App × List WorkerMessage) :=
  let s := a.state
  if s.full_edit_mode then
    none
  else if s.edit_mode then
    let pos := min s.edit_cursor_pos (strUtf8Len s.edit_buffer)
    match ev.code with
    | .char c =>
      let s := { s with query_error := none }
      if ev.modifiers.ctrl then
        if c = 'e' then
          some ({ a with state := { s with
            full_edit_mode := true
            focus := .content
            edit_cursor_pos := strUtf8Len s.edit_buffer } }, [])
        else some ({ a with state := s }, [])
      else
        match byteInsert s.edit_buffer pos c with
        | some buf =>
          some ({ a with state := { s with edit_buffer := buf, edit_cursor_pos := pos + 1 } }, [])
        | none => none
    | .backspace =>
      if 0 < pos then
        match byteRemove s.edit_buffer (pos - 1) with
        | some buf =>
          some ({ a with state := { s with edit_buffer := buf, edit_cursor_pos := pos - 1 } }, [])
        | none => none
      else some (a, [])
    | .delete =>
      if pos < strUtf8Len s.edit_buffer then
        match byteRemove s.edit_buffer pos with
        | some buf => some ({ a with state := { s with edit_buffer := buf } }, [])
        | none => none
      else some (a, [])
    | .left =>
      if 0 < pos then some ({ a with state := { s with edit_cursor_pos := pos - 1 } }, [])
      else some (a, [])
    | .right =>
      if pos < strUtf8Len s.edit_buffer then
        some ({ a with state := { s with edit_cursor_pos := pos + 1 } }, [])
      else some (a, [])
    | .home => some ({ a with state := { s with edit_cursor_pos := 0 } }, [])
    | .endKey =>
      some ({ a with state := { s with edit_cursor_pos := strUtf8Len s.edit_buffer } }, [])
    | _ => some (a, [])
  else if s.show_sql_editor && s.focus = Focus.content then
    none
  else if s.focus = Focus.tables then
    match ev.code with
    | .char c =>
      if c = '/' then some ({ a with state := { s with table_filter := "" } }, [])
      else some ({ a with state := { s with table_filter := s.table_filter.push c } }, [])
    | .backspace => some ({ a with state := { s with table_filter := strPop s.table_filter } }, [])
    | _ => some (a, [])
  else some (a, [])

/-- App::handle_key_event from src/app/mod.rs, lines 112 to 518, restricted
to the key codes of KeyCode.  A Rust match arm whose guard fails falls
through to the later arms and ultimately to the catch-all text-input
branch; that fall-through is explicit here via handle_key_fallthrough.
The result pairs the new application with the worker messages sent; none
models a panic or a branch outside the modelled fragment (see
handle_key_fallthrough). -/
def App.handle_key_event (a : App) (ev : KeyEvent) : Option (App × List WorkerMessage) :=
  let s := a.state
  let sql_editor_active := s.show_sql_editor && s.focus = Focus.content
  let full_editor_active := s.full_edit_mode
  match ev.code with
  | .tab =>
    if full_editor_active then some (a, [])
    else if ev.modifiers.shift then some ({ a with state := s.prev_pane }, [])
    else some ({ a with state := s.next_pane }, [])
  | .up =>
    if full_editor_active then some (a, [])
    else if s.edit_mode && !s.full_edit_mode then
      match s.editing_row with
      | some row =>
        if 0 < row then
          let s1 := { s with editing_row := some (row - 1) }
          match s.table_rows, s.editing_col with
          | some result, some col =>
            match result.rows.get? (row - 1) with
            | some row_data =>
              match row_data.get? col with
              | some val =>
                match val.display 10000 with
                | some full_value =>
                  some ({ a with state := { s1 with
                    edit_buffer := full_value
                    edit_cursor_pos := strUtf8Len full_value
                    full_edit_mode := fullEditPromotion full_value } }, [])
                | none => none
              | none => some ({ a with state := s1 }, [])
            | none => some ({ a with state := s1 }, [])
          | _, _ => some ({ a with state := s1 }, [])
        else some (a, [])
      | none => some (a, [])
    else if s.focus = Focus.tables then some ({ a with state := s.move_up }, [])
    else some (a, [])
  | .down =>
    if full_editor_active then some (a, [])
    else if s.edit_mode && !s.full_edit_mode then
      match s.editing_row, s.table_rows with
      | some row, some result =>
        if row < result.rows.length - 1 then
          let s1 := { s with editing_row := some (row + 1) }
          match s.editing_col with
          | some col =>
            match result.rows.get? (row + 1) with
            | some row_data =>
              match row_data.get? col with
              | some val =>
                match val.display 10000 with
                | some full_value =>
                  some ({ a with state := { s1 with
                    edit_buffer := full_value
                    edit_cursor_pos := strUtf8Len full_value
                    full_edit_mode := fullEditPromotion full_value } }, [])
                | none => none
              | none => some ({ a with state := s1 }, [])
            | none => some ({ a with state := s1 }, [])
          | none => some ({ a with state := s1 }, [])
        else some (a, [])
      | _, _ => some (a, [])
    else if s.focus = Focus.tables then some ({ a with state := s.move_down }, [])
    else some (a, [])
  | .enter =>
    if s.full_edit_mode then
      if ev.modifiers.shift then
        let pos := min s.edit_cursor_pos (strUtf8Len s.edit_buffer)
        match byteInsert s.edit_buffer pos '\n' with
        | some buf =>
          some ({ a with state := { s with edit_buffer := buf, edit_cursor_pos := pos + 1 } }, [])
        | none => none
      else
        let p := s.save_edited_cell
        some ({ a with state := p.1 }, p.2)
    else if s.edit_mode then
      let p := s.save_edited_cell
      some ({ a with state := p.1 }, p.2)
    else if s.show_sql_editor && s.focus = Focus.content then
      if ev.modifiers.shift then
        let pos := min s.sql_cursor_pos (strUtf8Len s.sql_query)
        match byteInsert s.sql_query pos '\n' with
        | some buf =>
          some ({ a with state := { s with sql_query := buf, sql_cursor_pos := pos + 1 } }, [])
        | none => none
      else
        let p := s.execute_query
        some ({ a with state := p.1 }, p.2)
    else if s.focus = Focus.tables then
      match s.selected_table with
      | some table_name =>
        if s.view_mode = ViewMode.schema then
          let p := s.load_schema table_name
          some ({ a with state := p.1 }, p.2)
        else
          let p := s.load_table table_name
          some ({ a with state := p.1 }, p.2)
      | none => some (a, [])
    else if s.focus = Focus.content ∧ s.view_mode = ViewMode.rows then
      (s.enter_edit_mode).map fun s1 => ({ a with state := s1 }, [])
    else some (a, [])
  | .left =>
    if full_editor_active then none
    else if s.show_sql_editor && s.focus = Focus.content then none
    else if s.edit_mode && !s.full_edit_mode then
      match s.editing_col with
      | some col =>
        if 0 < col then
          let s1 := { s with editing_col := some (col - 1) }
          match s.table_rows, s.editing_row with
          | some result, some row =>
            match result.rows.get? row with
            | some row_data =>
              match row_data.get? (col - 1) with
              | some val =>
                match val.display 1000 with
                | some v => some ({ a with state := { s1 with edit_buffer := v } }, [])
                | none => none
              | none => some ({ a with state := s1 }, [])
            | none => some ({ a with state := s1 }, [])
          | _, _ => some ({ a with state := s1 }, [])
        else some (a, [])
      | none => some (a, [])
    else if s.focus = Focus.content then
      let s1 := s.prev_page
      match s1.current_table with
      | some table_name =>
        let p := s1.load_table table_name
        some ({ a with state := p.1 }, p.2)
      | none => some ({ a with state := s1 }, [])
    else some (a, [])
  | .right =>
    if full_editor_active then none
    else if s.show_sql_editor && s.focus = Focus.content then none
    else if s.edit_mode && !s.full_edit_mode then
      match s.editing_col, s.table_rows with
      | some col, some result =>
        if col < result.columns.length - 1 then
          let s1 := { s with editing_col := some (col + 1) }
          match s.editing_row with
          | some row =>
            match result.rows.get? row with
            | some row_data =>
              match row_data.get? (col + 1) with
              | some val =>
                match val.display 1000 with
                | some v => some ({ a with state := { s1 with edit_buffer := v } }, [])
                | none => none
              | none => some ({ a with state := s1 }, [])
            | none => some ({ a with state := s1 }, [])
          | none => some ({ a with state := s1 }, [])
        else some (a, [])
      | _, _ => some (a, [])
    else if s.focus = Focus.content then
      let s1 := s.next_page
      match s1.current_table with
      | some table_name =>
        let p := s1.load_table table_name
        some ({ a with state := p.1 }, p.2)
      | none => some ({ a with state := s1 }, [])
    else some (a, [])
  | .esc =>
    if s.full_edit_mode then
      some ({ a with state := { s with full_edit_mode := false } }, [])
    else if s.edit_mode then
      some ({ a with state := { s with
        edit_mode := false
        editing_row := none
        editing_col := none
        edit_buffer := ""
        edit_cursor_pos := 0
        query_error := none } }, [])
    else if s.show_help then
      some ({ a with state := { s with show_help := false } }, [])
    else if s.show_sql_editor then
      let s1 := { s with
        show_sql_editor := false
        sql_query := ""
        sql_cursor_pos := 0
        query_result := none
        query_error := none }
      if s1.view_mode = ViewMode.query then
        let s2 := { s1 with view_mode := ViewMode.rows }
        match s2.current_table with
        | some table_name =>
          let p := s2.load_table table_name
          some ({ a with state := p.1 }, p.2)
        | none => some ({ a with state := s2 }, [])
      else some ({ a with state := s1 }, [])
    else some ({ a with state := { s with table_filter := "" } }, [])
  | .char c =>
    if c = 'q' ∧ ev.modifiers.isEmpty ∧ ¬ sql_editor_active ∧ ¬ full_editor_active then
      some ({ a with should_quit := true }, [])
    else if c = 'd' ∧ ev.modifiers.isEmpty ∧ ¬ sql_editor_active ∧ ¬ full_editor_active then
      let s1 := { s with focus := Focus.content, view_mode := ViewMode.diagram }
      if s1.diagram_data.isNone && !s1.diagram_loading then
        some ({ a with state := { s1 with diagram_loading := true } }, [WorkerMessage.loadDiagram])
      else some ({ a with state := s1 }, [])
    else if c = 's' ∧ ev.modifiers.isEmpty ∧ ¬ sql_editor_active ∧ ¬ full_editor_active then
      if s.focus = Focus.content then
        let s1 := s.toggle_view_mode
        match s1.view_mode with
        | .schema =>
          match s1.current_table with
          | some table_name =>
            let p := s1.load_schema table_name
            some ({ a with state := p.1 }, p.2)
          | none => some ({ a with state := s1 }, [])
        | .diagram =>
          if s1.diagram_data.isNone && !s1.diagram_loading then
            some ({ a with state := { s1 with diagram_loading := true } },
              [WorkerMessage.loadDiagram])
          else some ({ a with state := s1 }, [])
        | .rows =>
          match s1.current_table with
          | some table_name =>
            let p := s1.load_table table_name
            some ({ a with state := p.1 }, p.2)
          | none => some ({ a with state := s1 }, [])
        | .query => some ({ a with state := s1 }, [])
      else some (a, [])
    else if c = '/' ∧ ev.modifiers.isEmpty ∧ ¬ sql_editor_active ∧ ¬ full_editor_active then
      if s.focus = Focus.tables then some ({ a with state := { s with table_filter := "" } }, [])
      else some (a, [])
    else if c = 'c' ∧ ev.modifiers.ctrl ∧ sql_editor_active then
      let s1 := { s with query_result := none, query_error := none }
      if s1.view_mode = ViewMode.query then
        let s2 := { s1 with view_mode := ViewMode.rows }
        match s2.current_table with
        | some table_name =>
          let p := s2.load_table table_name
          some ({ a with state := p.1 }, p.2)
        | none => some ({ a with state := s2 }, [])
      else some ({ a with state := s1 }, [])
    else if c = 'e' ∧ ev.modifiers.isEmpty ∧ ¬ sql_editor_active ∧ ¬ full_editor_active then
      if s.edit_mode then
        some ({ a with state := { s with
          edit_mode := false
          editing_row := none
          editing_col := none
          edit_buffer := "" } }, [])
      else if s.show_sql_editor then
        let s1 := { s with
          show_sql_editor := false
          sql_query := ""
          sql_cursor_pos := 0
          query_result := none
          query_error := none }
        if s1.view_mode = ViewMode.query then
          let s2 := { s1 with view_mode := ViewMode.rows }
          match s2.current_table with
          | some table_name =>
            let p := s2.load_table table_name
            some ({ a with state := p.1 }, p.2)
          | none => some ({ a with state := s2 }, [])
        else some ({ a with state := s1 }, [])
      else
        some ({ a with state := { s with
          show_sql_editor := true
          focus := Focus.content
          sql_cursor_pos := strUtf8Len s.sql_query } }, [])
    else if c = '?' ∧ ev.modifiers.isEmpty then
      some ({ a with state := { s with show_help := !s.show_help } }, [])
    else handle_key_fallthrough ev a
  | _ => handle_key_fallthrough ev a

/-- An input to the reactive loop: a key event or a drained worker
response. -/
inductive AppEvent where
  | key (ev : KeyEvent)
  | response (r : WorkerResponse)

/-- Drive the application model through a sequence of key events and
drained worker responses, accumulating every worker message sent; none
models a panic (or a step outside the modelled fragment) somewhere along
the trace. -/
def runEvents : App → List AppEvent → Option (App × List WorkerMessage)
  | a, [] => some (a, [])
  | a, e :: rest =>
    let step := match e with
      | .key ev => a.handle_key_event ev
      | .response r => some (a.process_worker_response r)
    match step with
    | none => none
    | some (a1, msgs) =>
      match runEvents a1 rest with
      | none => none
      | some (a2, msgs2) => some (a2, msgs ++ msgs2)

/-- User input trace for the C4 counterexample: load the table list, close
the SQL editor with Escape, page right once in the content pane, move focus
to the tables pane, and press Enter to select and load table a for the
first time. -/
def c4Events : List AppEvent :=
  [ .response (.tablesLoaded [⟨"a", none, none⟩])
  , .key ⟨.esc, noMods⟩
  , .key ⟨.right, noMods⟩
  , .key ⟨.tab, noMods⟩
  , .key ⟨.enter, noMods⟩ ]

/-- C4 counterexample: in the reachable state after c4Events, Enter on the
tables pane has dispatched the row load for the newly selected table a
(current_table was none before), yet current_page is 1, not 0, and the
dispatched LoadTableRows command carries offset 10 = 1 * 10, not 0: the
page index is not reset when a different table is selected. -/
theorem C4_counterexample :
    (runEvents (App.new 10) c4Events).map
        (fun r => (r.1.state.current_page, r.1.state.current_table, r.2)) =
      some (1, some "a",
        [WorkerMessage.loadTableRows "a" 10 10, WorkerMessage.getTableInfo "a"]) := by
  decide

/-- C4 amended: selecting and loading a table does not reset the page
index: load_table leaves current_page unchanged and the dispatched
LoadTableRows command carries offset current_page * page_size, which is 0
only when the state machine was already on page 0. -/
theorem C4_load_table_keeps_page (s : AppState) (table_name : String) :
    (s.load_table table_name).1.current_page = s.current_page ∧
    (s.load_table table_name).1.current_table = some table_name ∧
    (s.load_table table_name).2 =
      [WorkerMessage.loadTableRows table_name s.page_size (s.current_page * s.page_size),
        WorkerMessage.getTableInfo table_name] :=
  ⟨rfl, rfl, rfl⟩

/-- User input trace for the C5 counterexample: load two tables, move focus
to the tables pane, move the selection down to index 1, then type the
filter character a, which shrinks the filtered list to length 1. -/
def c5Events : List AppEvent :=
  [ .response (.tablesLoaded [⟨"a", none, none⟩, ⟨"b", none, none⟩])
  , .key ⟨.tab, noMods⟩
  , .key ⟨.down, noMods⟩
  , .key ⟨.char 'a', noMods⟩ ]

/-- C5 counterexample: in the reachable state after c5Events the filtered
table list is non-empty (length 1) while selected_table_index is 1, so the
index is not strictly below the filtered length: a filter change does not
re-clamp the selection index. -/
theorem C5_counterexample :
    (runEvents (App.new 10) c5Events).map
        (fun r => (r.1.state.filtered_tables.length, r.1.state.selected_table_index,
          r.1.state.selected_table)) =
      some (1, 1, none) := by
  decide

/-- C5 amended: the selection index is interpreted against the filtered
list through a bounds-checked lookup and is re-clamped (modulo the filtered
length) only by the move operations; a filter change does not re-clamp it,
so the index may reach or exceed the length of a non-empty filtered list,
in which case selected_table returns none rather than indexing out of
bounds. -/
theorem C5_selection_bounds (s : AppState) :
    (0 < s.filtered_tables.length →
      s.move_up.selected_table_index < s.filtered_tables.length ∧
      s.move_down.selected_table_index < s.filtered_tables.length) ∧
    (s.filtered_tables.length ≤ s.selected_table_index → s.selected_table = none) ∧
    (∀ h : s.selected_table_index < s.filtered_tables.length,
      s.selected_table = some (s.filtered_tables.get ⟨s.selected_table_index, h⟩).name) := by
  refine ⟨?_, ?_, ?_⟩
  · intro h
    constructor
    · simp only [AppState.move_up, if_pos h]
      exact Nat.mod_lt _ h
    · simp only [AppState.move_down, if_pos h]
      exact Nat.mod_lt _ h
  · intro h
    have hnone : s.filtered_tables.get? s.selected_table_index = none :=
      List.get?_eq_none.mpr h
    unfold AppState.selected_table
    rw [hnone]
    rfl
  · intro h
    have hsome : s.filtered_tables.get? s.selected_table_index =
        some (s.filtered_tables.get ⟨s.selected_table_index, h⟩) :=
      List.get?_eq_get h
    unfold AppState.selected_table
    rw [hsome]
    rfl

theorem C5_witness :
    (0 < ({ AppState.new 10 with tables := [⟨"a", none, none⟩] } : AppState).filtered_tables.length ∧
      ({ AppState.new 10 with tables := [⟨"a", none, none⟩] } : AppState).move_down.selected_table_index <
        ({ AppState.new 10 with tables := [⟨"a", none, none⟩] } : AppState).filtered_tables.length) ∧
    (({ AppState.new 10 with tables := [⟨"a", none, none⟩], selected_table_index := 5 } : AppState).filtered_tables.length ≤ 5 ∧
      ({ AppState.new 10 with tables := [⟨"a", none, none⟩], selected_table_index := 5 } : AppState).selected_table = none) :=
  ⟨⟨by decide,
    ((C5_selection_bounds { AppState.new 10 with tables := [⟨"a", none, none⟩] }).1 (by decide)).2⟩,
    ⟨by decide,
      (C5_selection_bounds
        { AppState.new 10 with tables := [⟨"a", none, none⟩], selected_table_index := 5 }).2.1
        (by decide)⟩⟩

/-- A text cell of 26 two-byte characters: 26 characters but 52 UTF-8
bytes, with no newline. -/
def c8Cell : String := "¢¢¢¢¢¢¢¢¢¢¢¢¢¢¢¢¢¢¢¢¢¢¢¢¢¢"

/-- User input trace for the C8 counterexample: a row result whose cell
(0,0) holds c8Cell is loaded, the SQL editor is closed, and Enter in the
content pane enters edit mode targeting that cell. -/
def c8Events : List AppEvent :=
  [ .response (.tableRowsLoaded ⟨["c"], [[Value.text c8Cell]], false, 0⟩)
  , .key ⟨.esc, noMods⟩
  , .key ⟨.enter, noMods⟩ ]

/-- C8 counterexample: entering edit mode on a cell whose full display text
has 26 characters (at most 50) and no newline nevertheless sets
full_edit_mode, because the source compares the UTF-8 byte length (52)
against 50; this refutes the claim read with character counting. -/
theorem C8_counterexample :
    (runEvents (App.new 10) c8Events).map
        (fun r => (r.1.state.full_edit_mode, r.1.state.edit_buffer.length,
          r.1.state.edit_buffer.data.contains '\n')) =
      some (true, 26, false) := by
  decide

/-- C8 amended: full-edit promotion is decided by the UTF-8 byte length of
the seeded cell text: full_edit_mode becomes true iff that text is longer
than 50 bytes or contains a newline; in particular a seeded text of exactly
50 bytes with no newline does not trigger full-edit mode, 51 bytes does,
and any text containing a newline does regardless of length.  Entering edit
mode seeds the buffer with the full display of cell (0,0) and applies
exactly this promotion. -/
theorem C8_full_edit_promotion (full_value : String) (s : AppState)
    (result : QueryResult) (row : List Value) (val : Value) :
    (fullEditPromotion full_value = true ↔
      50 < strUtf8Len full_value ∨ '\n' ∈ full_value.data) ∧
    (strUtf8Len full_value = 50 → '\n' ∉ full_value.data →
      fullEditPromotion full_value = false) ∧
    (strUtf8Len full_value = 51 → fullEditPromotion full_value = true) ∧
    ('\n' ∈ full_value.data → fullEditPromotion full_value = true) ∧
    (s.table_rows = some result → result.rows.get? 0 = some row →
      row.get? 0 = some val → result.columns ≠ [] →
      val.display 10000 = some full_value →
      s.enter_edit_mode = some { s with
        edit_mode := true
        editing_row := some 0
        editing_col := some 0
        edit_buffer := full_value
        edit_cursor_pos := strUtf8Len full_value
        full_edit_mode := fullEditPromotion full_value }) := by
  refine ⟨?_, ?_, ?_, ?_, ?_⟩
  · simp [fullEditPromotion, List.contains, List.elem_iff]
  · intro h1 h2
    simp [fullEditPromotion, List.contains, List.elem_iff, h1, h2]
  · intro h1
    simp [fullEditPromotion, h1]
  · intro h1
    simp [fullEditPromotion, List.contains, List.elem_iff, h1]
  · intro htr hrow hval hcols hdisp
    have hrows_ne : result.rows ≠ [] := by
      intro hnil; rw [hnil] at hrow; simp at hrow
    have h1 : result.rows.isEmpty = false := by
      simpa [List.isEmpty_iff] using hrows_ne
    have h2 : result.columns.isEmpty = false := by
      simpa [List.isEmpty_iff] using hcols
    have hrow' : result.rows[0]? = some row := by simpa using hrow
    have hval' : row[0]? = some val := by simpa using hval
    simp [AppState.enter_edit_mode, htr, h1, h2, hrow', hval', hdisp]

theorem C8_witness :
    fullEditPromotion "xxxxxxxxxxxxxxxxxxxxxxxxxxxxxxxxxxxxxxxxxxxxxxxxxx" = false ∧
    fullEditPromotion "xxxxxxxxxxxxxxxxxxxxxxxxxxxxxxxxxxxxxxxxxxxxxxxxxxx" = true ∧
    fullEditPromotion "a\nb" = true ∧
    ({ AppState.new 10 with
        table_rows := some ⟨["c"], [[Value.text "v"]], false, 0⟩ } : AppState).enter_edit_mode =
      some { ({ AppState.new 10 with
          table_rows := some ⟨["c"], [[Value.text "v"]], false, 0⟩ } : AppState) with
        edit_mode := true
        editing_row := some 0
        editing_col := some 0
        edit_buffer := "v"
        edit_cursor_pos := strUtf8Len "v"
        full_edit_mode := fullEditPromotion "v" } :=
  ⟨(C8_full_edit_promotion "xxxxxxxxxxxxxxxxxxxxxxxxxxxxxxxxxxxxxxxxxxxxxxxxxx"
      (AppState.new 10) ⟨[], [], false, 0⟩ [] Value.null).2.1 (by decide) (by decide),
    (C8_full_edit_promotion "xxxxxxxxxxxxxxxxxxxxxxxxxxxxxxxxxxxxxxxxxxxxxxxxxxx"
      (AppState.new 10) ⟨[], [], false, 0⟩ [] Value.null).2.2.1 (by decide),
    (C8_full_edit_promotion "a\nb"
      (AppState.new 10) ⟨[], [], false, 0⟩ [] Value.null).2.2.2.1 (by decide),
    (C8_full_edit_promotion "v"
      { AppState.new 10 with table_rows := some ⟨["c"], [[Value.text "v"]], false, 0⟩ }
      ⟨["c"], [[Value.text "v"]], false, 0⟩ [Value.text "v"] (Value.text "v")).2.2.2.2
      rfl rfl rfl (by decide) (by decide)⟩

/-- The three structural introspection calls the LoadSchema handler can
make. -/
inductive SchemaCall where
  | columns | indexes | foreignKeys
deriving DecidableEq

/-- Outcome of the three introspection calls for one table, abstracting the
database access layer functions get_columns, get_indexes and
get_foreign_keys of src/db/schema.rs. -/
structure SchemaFetch where
  columns : Except String (List ColumnInfo)
  indexes : Except String (List IndexInfo)
  foreign_keys : Except String (List ForeignKeyInfo)

/-- The LoadSchema arm of the worker loop (src/worker/mod.rs, lines 141 to
160).  The source builds the tuple (get_columns(..), get_indexes(..),
get_foreign_keys(..)) and then matches on it; Rust evaluates every
component of a tuple expression before the match, so all three
introspection calls are issued unconditionally, which the returned call
list records.  The match sends SchemaLoaded when all three succeeded and
otherwise one Error for the first failure in columns, indexes,
foreign-keys order (the or-pattern alternatives are tried left to right);
exactly one response is sent either way. -/
def load_schema_step (f : SchemaFetch) : WorkerResponse × List SchemaCall :=
  let calls := [SchemaCall.columns, SchemaCall.indexes, SchemaCall.foreignKeys]
  match f.columns, f.indexes, f.foreign_keys with
  | .ok cs, .ok idxs, .ok fks => (.schemaLoaded cs idxs fks, calls)
  | .error e, _, _ => (.error ("Failed to load schema: " ++ e), calls)
  | _, .error e, _ => (.error ("Failed to load schema: " ++ e), calls)
  | _, _, .error e => (.error ("Failed to load schema: " ++ e), calls)

/-- C6 counterexample: with a failing columns call the worker still issues
the indexes and foreign-keys introspection calls, because the tuple is
built before it is matched, so the first failure does not short-circuit the
remaining introspection calls; a single Error response reporting the
columns failure is produced. -/
theorem C6_counterexample :
    (load_schema_step ⟨.error "boom", .ok [], .ok []⟩).2 =
        [SchemaCall.columns, SchemaCall.indexes, SchemaCall.foreignKeys] ∧
    (load_schema_step ⟨.error "boom", .ok [], .ok []⟩).2 ≠ [SchemaCall.columns] ∧
    (load_schema_step ⟨.error "boom", .ok [], .ok []⟩).1 =
      .error "Failed to load schema: boom" := by
  refine ⟨rfl, ?_, rfl⟩
  decide

/-- C6 amended: handling a LoadSchema command always issues all three
introspection calls (columns, indexes, foreign keys) - a failing call does
not short-circuit the remaining ones - and sends exactly one response: a
SchemaLoaded result iff all three succeed, otherwise a single Error
reporting the first failure in columns, indexes, foreign-keys
precedence. -/
theorem C6_load_schema (f : SchemaFetch) :
    (load_schema_step f).2 =
      [SchemaCall.columns, SchemaCall.indexes, SchemaCall.foreignKeys] ∧
    (∀ cs idxs fks, f.columns = .ok cs → f.indexes = .ok idxs →
      f.foreign_keys = .ok fks →
      (load_schema_step f).1 = .schemaLoaded cs idxs fks) ∧
    (∀ e, f.columns = .error e →
      (load_schema_step f).1 = .error ("Failed to load schema: " ++ e)) ∧
    (∀ e cs, f.columns = .ok cs → f.indexes = .error e →
      (load_schema_step f).1 = .error ("Failed to load schema: " ++ e)) ∧
    (∀ e cs idxs, f.columns = .ok cs → f.indexes = .ok idxs →
      f.foreign_keys = .error e →
      (load_schema_step f).1 = .error ("Failed to load schema: " ++ e)) := by
  obtain ⟨c, i, k⟩ := f
  refine ⟨?_, ?_, ?_, ?_, ?_⟩
  · cases c <;> cases i <;> cases k <;> rfl
  · intro cs idxs fks hc hi hk
    simp only at hc hi hk
    subst hc; subst hi; subst hk; rfl
  · intro e hc
    simp only at hc
    subst hc
    cases i <;> cases k <;> rfl
  · intro e cs hc hi
    simp only at hc hi
    subst hc; subst hi
    cases k <;> rfl
  · intro e cs idxs hc hi hk
    simp only at hc hi hk
    subst hc; subst hi; subst hk; rfl

theorem C6_witness :
    (load_schema_step ⟨.ok [], .ok [], .ok []⟩).1 = .schemaLoaded [] [] [] ∧
    (load_schema_step ⟨.ok [], .error "x", .ok []⟩).1 =
      .error ("Failed to load schema: " ++ "x") ∧
    (load_schema_step ⟨.ok [], .ok [], .error "y"⟩).1 =
      .error ("Failed to load schema: " ++ "y") :=
  ⟨(C6_load_schema ⟨.ok [], .ok [], .ok []⟩).2.1 [] [] [] rfl rfl rfl,
    (C6_load_schema ⟨.ok [], .error "x", .ok []⟩).2.2.2.1 "x" [] rfl rfl,
    (C6_load_schema ⟨.ok [], .ok [], .error "y"⟩).2.2.2.2 "y" [] [] rfl rfl rfl⟩

/-- Lexicographic comparison of character lists. -/
def charListLt : List Char → List Char → Bool
  | [], [] => false
  | [], _ :: _ => true
  | _ :: _, [] => false
  | a :: as, b :: bs =>
    if a < b then true
    else if b < a then false
    else charListLt as bs

/-- Rust String comparison (the Ord instance used by the source when it
writes fk.from_table < fk.to_table): lexicographic order on the UTF-8
bytes, which for valid UTF-8 coincides with lexicographic order on the
character sequences, since UTF-8 encoding preserves the order of unicode
scalar values. -/
def string_lt (a b : String) : Bool := charListLt a.data b.data

/-- Canonical unordered pair key for a relationship: the two table names in
lexicographic order, as computed at src/ui/diagram.rs lines 198 to 204. -/
def relationship_key (from_table to_table : String) : String × String :=
  if string_lt from_table to_table then (from_table, to_table) else (to_table, from_table)

/-- The connector selection loop of draw_relationship_arrows
(src/ui/diagram.rs, lines 184 to 233) over the flattened foreign-key list
of the diagram: a key one of whose endpoint tables is not rendered is
skipped, a self-referencing key is skipped, and a canonical key already in
the drawn set is skipped; every surviving key is added to the drawn set and
emitted, one entry per connector drawn.  (draw_curved_arrow may further
decline to paint a connector whose endpoints fall outside the drawing area,
which only removes connectors.) -/
def draw_relationships (rendered : List String) :
    List ForeignKeyInfo → List (String × String) → List (String × String)
  | [], _ => []
  | fk :: rest, drawn =>
    if fk.from_table ∈ rendered ∧ fk.to_table ∈ rendered then
      if fk.from_table = fk.to_table then draw_relationships rendered rest drawn
      else
        let key := relationship_key fk.from_table fk.to_table
        if key ∈ drawn then draw_relationships rendered rest drawn
        else key :: draw_relationships rendered rest (key :: drawn)
    else draw_relationships rendered rest drawn

/-- Connector keys produced for a diagram: the foreign keys of every table
in input order, with an initially empty drawn set.  The rendered table set
is the set of table names of the diagram, since render_diagram places every
diagram table in the grid and records it in table_positions. -/
def diagram_connectors (tables : List DiagramTable) : List (String × String) :=
  draw_relationships (tables.map (·.name)) (tables.flatMap (·.foreign_keys)) []

lemma charListLt_asymm : ∀ x y : List Char, charListLt x y = true → charListLt y x = false := by
  intro x
  induction x with
  | nil =>
    intro y hy
    cases y with
    | nil => simp [charListLt] at hy
    | cons b bs => simp [charListLt]
  | cons a as ih =>
    intro y hy
    cases y with
    | nil => simp [charListLt] at hy
    | cons b bs =>
      by_cases hab : a < b
      · have hba : ¬ b < a := lt_asymm hab
        simp [charListLt, hab, hba]
      · by_cases hba : b < a
        · simp [charListLt, hab, hba] at hy
        · have hrec : charListLt as bs = true := by
            simpa [charListLt, hab, hba] using hy
          simpa [charListLt, hab, hba] using ih bs hrec

lemma charListLt_of_ne : ∀ x y : List Char, charListLt x y = false → x ≠ y →
    charListLt y x = true := by
  intro x
  induction x with
  | nil =>
    intro y h hne
    cases y with
    | nil => exact absurd rfl hne
    | cons b bs => simp [charListLt] at h
  | cons a as ih =>
    intro y h hne
    cases y with
    | nil => simp [charListLt]
    | cons b bs =>
      by_cases hab : a < b
      · simp [charListLt, hab] at h
      · by_cases hba : b < a
        · simp [charListLt, hba]
        · have hane : a = b := le_antisymm (le_of_not_lt hba) (le_of_not_lt hab)
          subst hane
          have h1 : charListLt as bs = false := by
            simpa [charListLt, lt_irrefl] using h
          have h2 : as ≠ bs := fun hh => hne (by rw [hh])
          simpa [charListLt, lt_irrefl] using ih bs h1 h2

lemma string_lt_asymm {a b : String} (h : string_lt a b = true) : string_lt b a = false :=
  charListLt_asymm _ _ h

lemma string_lt_of_ne {a b : String} (h : string_lt a b = false) (hne : a ≠ b) :
    string_lt b a = true := by
  refine charListLt_of_ne _ _ h ?_
  intro hd
  exact hne (congrArg String.mk hd)

lemma relationship_key_lt {a b : String} (h : a ≠ b) :
    string_lt (relationship_key a b).1 (relationship_key a b).2 = true := by
  unfold relationship_key
  by_cases hlt : string_lt a b = true
  · simp [hlt]
  · have hfalse : string_lt a b = false := by simpa using hlt
    simp [hfalse, string_lt_of_ne hfalse h]

lemma draw_relationships_sound (rendered : List String) :
    ∀ (fks : List ForeignKeyInfo) (drawn : List (String × String)),
      (∀ k ∈ draw_relationships rendered fks drawn,
        k ∉ drawn ∧ string_lt k.1 k.2 = true) ∧
      (draw_relationships rendered fks drawn).Nodup := by
  intro fks
  induction fks with
  | nil =>
    intro drawn
    constructor
    · intro k hk
      simp [draw_relationships] at hk
    · simp [draw_relationships]
  | cons fk rest ih =>
    intro drawn
    by_cases hr : fk.from_table ∈ rendered ∧ fk.to_table ∈ rendered
    · by_cases hself : fk.from_table = fk.to_table
      · simpa [draw_relationships, hr, hself] using ih drawn
      · by_cases hmem : relationship_key fk.from_table fk.to_table ∈ drawn
        · simpa [draw_relationships, hr, hself, hmem] using ih drawn
        · have hrec := ih (relationship_key fk.from_table fk.to_table :: drawn)
          have hunf : draw_relationships rendered (fk :: rest) drawn =
              relationship_key fk.from_table fk.to_table ::
                draw_relationships rendered rest
                  (relationship_key fk.from_table fk.to_table :: drawn) := by
            simp [draw_relationships, hr, hself, hmem]
          constructor
          · intro k hk
            rw [hunf] at hk
            rcases List.mem_cons.mp hk with hk | hk
            · subst hk
              exact ⟨hmem, relationship_key_lt hself⟩
            · have h1 := (hrec.1 k hk).1
              refine ⟨fun hkd => h1 (List.mem_cons_of_mem _ hkd), (hrec.1 k hk).2⟩
          · rw [hunf]
            refine List.nodup_cons.mpr ⟨?_, hrec.2⟩
            intro hkmem
            exact (hrec.1 _ hkmem).1 (List.mem_cons_self _ _)
    · simpa [draw_relationships, hr] using ih drawn

lemma draw_relationships_all_self (rendered : List String) :
    ∀ (fks : List ForeignKeyInfo) (drawn : List (String × String)),
      (∀ fk ∈ fks, fk.from_table = fk.to_table) →
      draw_relationships rendered fks drawn = [] := by
  intro fks
  induction fks with
  | nil => intro drawn _; rfl
  | cons fk rest ih =>
    intro drawn hall
    have hself : fk.from_table = fk.to_table := hall fk (List.mem_cons_self _ _)
    have hrest : ∀ fk2 ∈ rest, fk2.from_table = fk2.to_table :=
      fun fk2 h2 => hall fk2 (List.mem_cons_of_mem _ h2)
    by_cases hr : fk.from_table ∈ rendered ∧ fk.to_table ∈ rendered
    · simpa [draw_relationships, hr, hself] using ih drawn hrest
    · simpa [draw_relationships, hr] using ih drawn hrest

lemma countP_pair_le_one (ks : List (String × String)) (a b : String)
    (hord : ∀ k ∈ ks, string_lt k.1 k.2 = true) (hnd : ks.Nodup) :
    ks.countP (fun k => decide (k = (a, b) ∨ k = (b, a))) ≤ 1 := by
  induction ks with
  | nil => simp
  | cons k t ih =>
    have hordt : ∀ k2 ∈ t, string_lt k2.1 k2.2 = true :=
      fun k2 h2 => hord k2 (List.mem_cons_of_mem _ h2)
    have hndt : t.Nodup := (List.nodup_cons.mp hnd).2
    by_cases hk : k = (a, b) ∨ k = (b, a)
    · have hzero : t.countP (fun k2 => decide (k2 = (a, b) ∨ k2 = (b, a))) = 0 := by
        rw [List.countP_eq_zero]
        intro k2 h2 hp2
        have hk2 : k2 = (a, b) ∨ k2 = (b, a) := of_decide_eq_true hp2
        have hkk2 : k2 = k := by
          have hhead := hord k (List.mem_cons_self _ _)
          have htail := hordt k2 h2
          rcases hk with hk | hk <;> rcases hk2 with hk2 | hk2
          · rw [hk, hk2]
          · rw [hk] at hhead
            rw [hk2] at htail
            rw [string_lt_asymm hhead] at htail
            simp at htail
          · rw [hk] at hhead
            rw [hk2] at htail
            rw [string_lt_asymm htail] at hhead
            simp at hhead
          · rw [hk, hk2]
        exact absurd (hkk2 ▸ h2) (List.nodup_cons.mp hnd).1
      rw [List.countP_cons, hzero]
      simp [hk]
    · rw [List.countP_cons]
      have hfk : decide (k = (a, b) ∨ k = (b, a)) = false := by
        simpa using hk
      rw [hfk]
      simpa using ih hordt hndt

/-- C7: in diagram connector routing, a self-referencing foreign key
produces no connector and every unordered pair of distinct tables,
canonicalised by lexicographic order of table names, is connected at most
once: every emitted connector key is a strictly ordered pair of names (so
a pair of one table with itself never appears), the emitted key list has no
duplicates, for any two names at most one connector matches the pair in
either orientation, and if every foreign key of every table is
self-referencing then no connector at all is produced. -/
theorem C7_diagram_dedup (tables : List DiagramTable) (a b : String) :
    (∀ k ∈ diagram_connectors tables, string_lt k.1 k.2 = true) ∧
    (diagram_connectors tables).Nodup ∧
    (diagram_connectors tables).countP (fun k => decide (k = (a, b) ∨ k = (b, a))) ≤ 1 ∧
    ((∀ t ∈ tables, ∀ fk ∈ t.foreign_keys, fk.from_table = fk.to_table) →
      diagram_connectors tables = []) := by
  have hs := draw_relationships_sound (tables.map (·.name)) (tables.flatMap (·.foreign_keys)) []
  refine ⟨fun k hk => (hs.1 k hk).2, hs.2, ?_, ?_⟩
  · exact countP_pair_le_one _ a b (fun k hk => (hs.1 k hk).2) hs.2
  · intro hall
    refine draw_relationships_all_self _ _ _ ?_
    intro fk hfk
    rcases List.mem_flatMap.mp hfk with ⟨t, ht, hfkt⟩
    exact hall t ht fk hfkt

theorem C7_witness :
    ((diagram_connectors
        [⟨"a", [], [⟨0, "a", "x", "b", "y", none, none⟩]⟩,
          ⟨"b", [], [⟨0, "b", "y", "a", "x", none, none⟩]⟩]).Nodup ∧
      diagram_connectors
        [⟨"a", [], [⟨0, "a", "x", "b", "y", none, none⟩]⟩,
          ⟨"b", [], [⟨0, "b", "y", "a", "x", none, none⟩]⟩] = [("a", "b")]) ∧
    diagram_connectors [⟨"a", [], [⟨0, "a", "x", "a", "y", none, none⟩]⟩] = [] :=
  ⟨⟨(C7_diagram_dedup
      [⟨"a", [], [⟨0, "a", "x", "b", "y", none, none⟩]⟩,
        ⟨"b", [], [⟨0, "b", "y", "a", "x", none, none⟩]⟩] "a" "b").2.1,
    by decide⟩,
    (C7_diagram_dedup [⟨"a", [], [⟨0, "a", "x", "a", "y", none, none⟩]⟩] "a" "a").2.2.2
      (by decide)⟩

end Sqr
